import Mathlib

/-!
Verification of the crash-shutdown core of a hypervisor
(source file: xen/arch/x86/crash.c).

The development is a shallow embedding of the three functions of the
source file:

- do_nmi_crash, the NMI handler installed on non-crashing CPUs;
- nmi_shootdown_cpus, the coordinator that broadcasts the NMI and
  polls the waiting_to_crash mask;
- machine_crash_shutdown, the entry point that runs the shootdown and
  then fills in the crash info record.

Modelling choices:

- CPU masks (cpumask_t) become Finset Nat of CPU ids.
- The per-CPU boolean crash_save_done becomes the Finset of CPUs whose
  flag is true.
- Hardware side effects (set_ist, kexec_crash_save_cpu, ICR writes,
  printk, iommu calls, ...) are recorded as an ordered trace of Event
  values, in the order the source performs them.
- The waiting_to_crash mask is mutated concurrently by the remote
  handlers while the coordinator polls it; the value the coordinator
  reads at poll iteration t is supplied by an oracle
  pendingAt : Nat -> Finset Nat in the ShootdownEnv record.  Hardware
  query results (current_local_apic_mode, pcidevs_trylock, the online
  map, xen_phys_start, the frame-list reference) are likewise inputs of
  the environment.
- do_nmi_crash and nmi_shootdown_cpus never return in the source (the
  handler ends in a halt loop, the caller hands off to the crash
  kernel); the embedding returns the state reached at the halt loop or
  at the final return, together with the event trace.
-/

namespace CrashModel

/-- Result of current_local_apic_mode(): the two recognized local APIC
addressing modes plus the unrecognized catch-all (the default branch of
the switch in do_nmi_crash). -/
inductive ApicMode where
  | x2apic
  | xapic
  | unknown
  deriving DecidableEq, Repr

/-- Observable side effects of the crash path, one constructor per
external call the source makes, recorded in program order. -/
inductive Event where
  | disableWatchdog
  | localIrqDisable
  | setNmiGateNop
  | setIstMcNone (cpu : Nat)
  | setNmiCallback
  | sendNmiAllButSelf
  | pollWait (ms : Nat)
  | consoleForceUnlock
  | printShotDownAll
  | printFailed (stragglers : Finset Nat)
  | iommuCrashShutdown
  | stopThisCpu (cpu : Nat)
  | pciDisableMsiAll
  | pcidevsUnlock
  | disableIOAPIC
  | hpetDisable
  | iommuQuiesce
  | saveCpu (cpu : Nat)
  | selfNmi (cpu : Nat)
  | halt
  deriving DecidableEq

/-- The crash_xen_info_t record written by machine_crash_shutdown.
Fields are Option so that an unwritten field is none. -/
structure CrashInfo where
  xen_phys_start : Option Nat
  dom0_pfn_to_mfn_frame_list_list : Option Nat
  deriving DecidableEq, Repr

/-- Mutable state of the crash path: the file-scope variables of
crash.c plus the crash info record of its external collaborator. -/
structure XenState where
  waiting_to_crash : Finset Nat
  crashing_cpu : Nat
  crash_save_done : Finset Nat
  localIrqCount : Nat → Nat
  x2apicEnabled : Bool
  crashInfo : CrashInfo

/-- Inputs of nmi_shootdown_cpus that the hardware or other CPUs
provide: the online map, the value of waiting_to_crash observed at each
poll iteration, the local APIC mode query result, the pcidevs_trylock
outcome, and the two values machine_crash_shutdown stores. -/
structure ShootdownEnv where
  onlineMap : Finset Nat
  pendingAt : Nat → Finset Nat
  coordMode : ApicMode
  lockFree : Bool
  physStart : Nat
  frameListRef : Nat

/-- Tail of do_nmi_crash after the crash_save_done guard: the
self-targeted NMI (switch on the APIC mode, with the default branch
doing nothing) followed by the terminal halt loop. -/
def nmiCrashTail (mode : ApicMode) (cpu : Nat) : List Event :=
  (match mode with
   | ApicMode.x2apic => [Event.selfNmi cpu]
   | ApicMode.xapic => [Event.selfNmi cpu]
   | ApicMode.unknown => []) ++ [Event.halt]

/-- Embedding of do_nmi_crash: on first entry (crash_save_done false)
disable the MCE IST, save the CPU state, stop the CPU, set the flag and
clear this CPU from waiting_to_crash; then in every entry run the
self-latch tail and halt. -/
def do_nmi_crash (mode : ApicMode) (st : XenState) (cpu : Nat) :
    XenState × List Event :=
  if cpu ∈ st.crash_save_done then
    (st, nmiCrashTail mode cpu)
  else
    ({ st with
        crash_save_done := insert cpu st.crash_save_done,
        waiting_to_crash := st.waiting_to_crash.erase cpu },
     [Event.setIstMcNone cpu, Event.saveCpu cpu, Event.stopThisCpu cpu]
       ++ nmiCrashTail mode cpu)

/-- Embedding of the poll loop of nmi_shootdown_cpus:
while ( !cpumask_empty(&waiting_to_crash) && msecs ) mdelay(1), msecs--.
Returns the number of 1ms iterations elapsed, reading the mask through
the oracle at each iteration. -/
def shootdownPoll (pending : Nat → Finset Nat) : Nat → Nat → Nat
  | 0, t => t
  | m + 1, t => if (pending t).Nonempty then shootdownPoll pending m (t + 1) else t

/-- Number of 1ms poll iterations nmi_shootdown_cpus performs, starting
from msecs = 1000. -/
def shootdownElapsed (env : ShootdownEnv) : Nat :=
  shootdownPoll env.pendingAt 1000 0

/-- State updates at the head of nmi_shootdown_cpus: record the calling
CPU as crashing_cpu, zero its local_irq_count, and set waiting_to_crash
to the online map minus the calling CPU. -/
def shootdownInit (online : Finset Nat) (cpu : Nat) (st : XenState) : XenState :=
  { st with
      crashing_cpu := cpu,
      localIrqCount := Function.update st.localIrqCount cpu 0,
      waiting_to_crash := online.erase cpu }

/-- Embedding of nmi_shootdown_cpus. Events appear in source order:
watchdog disable, local irq disable, NMI gate rebound to trap_nop, MCE
IST disabled, NMI callback installed, NMI broadcast, the bounded poll,
console force-unlock, the outcome report, iommu_crash_shutdown, and,
when the calling CPU is online, the local shutdown with the
pcidevs_trylock-guarded MSI disable and the final device quiescing. -/
def nmi_shootdown_cpus (env : ShootdownEnv) (cpu : Nat) (st : XenState) :
    XenState × List Event :=
  let st1 := shootdownInit env.onlineMap cpu st
  let preEvents : List Event :=
    [Event.disableWatchdog, Event.localIrqDisable, Event.setNmiGateNop,
     Event.setIstMcNone cpu, Event.setNmiCallback, Event.sendNmiAllButSelf]
  let elapsed := shootdownElapsed env
  let stragglers := env.pendingAt elapsed
  let st2 := { st1 with waiting_to_crash := stragglers }
  let report :=
    if stragglers = ∅ then Event.printShotDownAll else Event.printFailed stragglers
  let midEvents : List Event :=
    [Event.pollWait elapsed, Event.consoleForceUnlock, report,
     Event.iommuCrashShutdown]
  if cpu ∈ env.onlineMap then
    let st3 := { st2 with x2apicEnabled := env.coordMode = ApicMode.x2apic }
    let lockEvents : List Event :=
      if env.lockFree then [Event.pciDisableMsiAll, Event.pcidevsUnlock] else []
    (st3, preEvents ++ midEvents ++ [Event.stopThisCpu cpu] ++ lockEvents ++
          [Event.disableIOAPIC, Event.hpetDisable, Event.iommuQuiesce])
  else
    (st2, preEvents ++ midEvents)

/-- Embedding of machine_crash_shutdown: run the shootdown, then write
both fields of the crash info record unconditionally. -/
def machine_crash_shutdown (env : ShootdownEnv) (cpu : Nat) (st : XenState) :
    XenState × List Event :=
  let r := nmi_shootdown_cpus env cpu st
  ({ r.1 with
      crashInfo :=
        { xen_phys_start := some env.physStart,
          dom0_pfn_to_mfn_frame_list_list := some env.frameListRef } },
   r.2)

/-- One invocation of the remote NMI handler on some CPU, viewed as a
transition on the shared state. -/
def RemoteStep (s t : XenState) : Prop :=
  ∃ mode cpu, t = (do_nmi_crash mode s cpu).1

/-- Any state transition the crash path can perform: a remote handler
invocation, a coordinator run, or a full machine_crash_shutdown run. -/
inductive CrashStep : XenState → XenState → Prop where
  | remote : ∀ mode cpu st, CrashStep st (do_nmi_crash mode st cpu).1
  | shootdown : ∀ env cpu st, CrashStep st (nmi_shootdown_cpus env cpu st).1
  | machineShutdown : ∀ env cpu st, CrashStep st (machine_crash_shutdown env cpu st).1

/-- Sample concrete state used by the witness theorems. -/
def st0 : XenState :=
  { waiting_to_crash := ∅,
    crashing_cpu := 0,
    crash_save_done := ∅,
    localIrqCount := fun _ => 0,
    x2apicEnabled := false,
    crashInfo := { xen_phys_start := none, dom0_pfn_to_mfn_frame_list_list := none } }

/-- Sample state whose CPU 1 already ran its save step. -/
def stDone : XenState :=
  { st0 with crash_save_done := {1} }

/-- Sample environment: four online CPUs, CPU 2 never clears itself
from the pending mask, the pcidevs lock is held elsewhere. -/
def env0 : ShootdownEnv :=
  { onlineMap := {0, 1, 2, 3},
    pendingAt := fun _ => {2},
    coordMode := ApicMode.xapic,
    lockFree := false,
    physStart := 7,
    frameListRef := 9 }

theorem shootdownPoll_le (pending : Nat → Finset Nat) :
    ∀ fuel t, shootdownPoll pending fuel t ≤ t + fuel := by
  intro fuel
  induction fuel with
  | zero => intro t; simp [shootdownPoll]
  | succ m ih =>
      intro t
      simp only [shootdownPoll]
      split
      · have := ih (t + 1)
        omega
      · omega

theorem shootdownPoll_empty_or_exhausted (pending : Nat → Finset Nat) :
    ∀ fuel t, pending (shootdownPoll pending fuel t) = ∅ ∨
      shootdownPoll pending fuel t = t + fuel := by
  intro fuel
  induction fuel with
  | zero => intro t; right; simp [shootdownPoll]
  | succ m ih =>
      intro t
      simp only [shootdownPoll]
      split
      · rcases ih (t + 1) with h | h
        · exact Or.inl h
        · right; omega
      · left
        rename_i hne
        exact Finset.not_nonempty_iff_eq_empty.mp hne

theorem shootdownPoll_ne_before (pending : Nat → Finset Nat) :
    ∀ fuel t s, t ≤ s → s < shootdownPoll pending fuel t → pending s ≠ ∅ := by
  intro fuel
  induction fuel with
  | zero =>
      intro t s hts hs
      simp [shootdownPoll] at hs
      omega
  | succ m ih =>
      intro t s hts hs
      simp only [shootdownPoll] at hs
      by_cases hne : (pending t).Nonempty
      · rw [if_pos hne] at hs
        rcases Nat.eq_or_lt_of_le hts with heq | hlt
        · subst heq
          exact Finset.nonempty_iff_ne_empty.mp hne
        · exact ih (t + 1) s hlt hs
      · rw [if_neg hne] at hs
        omega

/-- C1: when nmi_shootdown_cpus returns, either the pending mask it
observed is empty or the full 1000 iterations of 1ms elapsed; the poll
never runs past an empty reading (it exits immediately once the mask is
empty) and never exits early otherwise. The pollWait event of the trace
records the elapsed count. -/
theorem poll_empty_or_full_second (env : ShootdownEnv) :
    shootdownElapsed env ≤ 1000 ∧
    (env.pendingAt (shootdownElapsed env) = ∅ ∨ shootdownElapsed env = 1000) ∧
    (∀ t, t < shootdownElapsed env → env.pendingAt t ≠ ∅) ∧
    (∀ cpu st, Event.pollWait (shootdownElapsed env) ∈
      (nmi_shootdown_cpus env cpu st).2) := by
  refine ⟨?_, ?_, ?_, ?_⟩
  · have := shootdownPoll_le env.pendingAt 1000 0
    simpa [shootdownElapsed] using this
  · have := shootdownPoll_empty_or_exhausted env.pendingAt 1000 0
    simpa [shootdownElapsed] using this
  · intro t ht
    exact shootdownPoll_ne_before env.pendingAt 1000 0 t (Nat.zero_le t) ht
  · intro cpu st
    simp only [nmi_shootdown_cpus]
    split <;> simp

/-- C2: after machine_crash_shutdown returns, both fields of the crash
info record hold the values written from the environment, whatever the
shootdown outcome was. -/
theorem crash_info_populated (env : ShootdownEnv) (cpu : Nat) (st : XenState) :
    (machine_crash_shutdown env cpu st).1.crashInfo.xen_phys_start
        = some env.physStart ∧
    (machine_crash_shutdown env cpu st).1.crashInfo.dom0_pfn_to_mfn_frame_list_list
        = some env.frameListRef := by
  constructor <;> rfl

/-- C3: a second or later invocation of do_nmi_crash on a CPU whose
crash_save_done flag is already set leaves the state unchanged (no
waiting_to_crash removal), performs no state-capture call, and goes
directly to the self-latch tail ending in the halt loop. -/
theorem do_nmi_crash_idempotent (mode : ApicMode) (st : XenState) (cpu : Nat)
    (h : cpu ∈ st.crash_save_done) :
    do_nmi_crash mode st cpu = (st, nmiCrashTail mode cpu) ∧
    (∀ c, Event.saveCpu c ∉ nmiCrashTail mode cpu) ∧
    (nmiCrashTail mode cpu).getLast? = some Event.halt := by
  refine ⟨by simp [do_nmi_crash, h], ?_, ?_⟩
  · intro c
    cases mode <;> simp [nmiCrashTail]
  · cases mode <;> simp [nmiCrashTail]

/-- Witness for C3 at a concrete re-entry: CPU 1 of stDone already has
its flag set. -/
theorem do_nmi_crash_idempotent_witness :
    do_nmi_crash ApicMode.x2apic stDone 1 = (stDone, nmiCrashTail ApicMode.x2apic 1) ∧
    (∀ c, Event.saveCpu c ∉ nmiCrashTail ApicMode.x2apic 1) ∧
    (nmiCrashTail ApicMode.x2apic 1).getLast? = some Event.halt :=
  do_nmi_crash_idempotent ApicMode.x2apic stDone 1 (by decide)

theorem do_nmi_crash_done_mono (mode : ApicMode) (st : XenState) (cpu c : Nat)
    (hc : c ∈ st.crash_save_done) :
    c ∈ (do_nmi_crash mode st cpu).1.crash_save_done := by
  simp only [do_nmi_crash]
  split
  · exact hc
  · exact Finset.mem_insert_of_mem hc

theorem nmi_shootdown_cpus_done_eq (env : ShootdownEnv) (cpu : Nat) (st : XenState) :
    (nmi_shootdown_cpus env cpu st).1.crash_save_done = st.crash_save_done := by
  simp only [nmi_shootdown_cpus, shootdownInit]
  split <;> rfl

theorem machine_crash_shutdown_done_eq (env : ShootdownEnv) (cpu : Nat)
    (st : XenState) :
    (machine_crash_shutdown env cpu st).1.crash_save_done = st.crash_save_done := by
  simp only [machine_crash_shutdown]
  exact nmi_shootdown_cpus_done_eq env cpu st

/-- C4: along any sequence of crash-path transitions (remote handler
invocations, coordinator runs, full shutdown runs), a CPU whose
crash_save_done flag is set keeps it set: the flag is never reset, so
it changes at most once, from false to true (only do_nmi_crash writes
it, by inserting the CPU into the set). -/
theorem crash_save_done_monotone (st st' : XenState) (c : Nat)
    (h : Relation.ReflTransGen CrashStep st st') (hc : c ∈ st.crash_save_done) :
    c ∈ st'.crash_save_done := by
  induction h with
  | refl => exact hc
  | tail _ hstep ih =>
      cases hstep with
      | remote mode cpu => exact do_nmi_crash_done_mono mode _ cpu c ih
      | shootdown env cpu =>
          rw [nmi_shootdown_cpus_done_eq]
          exact ih
      | machineShutdown env cpu =>
          rw [machine_crash_shutdown_done_eq]
          exact ih

/-- Witness for C4: a one-step chain from stDone through a remote
re-invocation of CPU 1 keeps its flag set. -/
theorem crash_save_done_monotone_witness :
    1 ∈ (do_nmi_crash ApicMode.xapic stDone 1).1.crash_save_done :=
  crash_save_done_monotone stDone (do_nmi_crash ApicMode.xapic stDone 1).1 1
    (Relation.ReflTransGen.single (CrashStep.remote ApicMode.xapic 1 stDone))
    (by decide)

theorem remote_step_preserves_not_waiting (s t : XenState) (h : RemoteStep s t)
    (hinv : s.crashing_cpu ∉ s.waiting_to_crash) :
    t.crashing_cpu ∉ t.waiting_to_crash := by
  obtain ⟨mode, cpu, rfl⟩ := h
  simp only [do_nmi_crash]
  split
  · exact hinv
  · intro hmem
    exact hinv (Finset.mem_of_mem_erase hmem)

/-- C5: starting from the state nmi_shootdown_cpus sets up (the pending
mask is the online map minus the coordinator), after any sequence of
remote handler invocations the coordinator id is still not a member of
the pending mask: the initialization excludes it and every later
mutation only erases the invoked CPU. -/
theorem crashing_cpu_not_in_waiting (online : Finset Nat) (cpu : Nat)
    (st st' : XenState)
    (h : Relation.ReflTransGen RemoteStep (shootdownInit online cpu st) st') :
    st'.crashing_cpu ∉ st'.waiting_to_crash := by
  have hbase : (shootdownInit online cpu st).crashing_cpu ∉
      (shootdownInit online cpu st).waiting_to_crash := by
    simp [shootdownInit]
  induction h with
  | refl => exact hbase
  | tail _ hstep ih => exact remote_step_preserves_not_waiting _ _ hstep ih

/-- Witness for C5: the freshly initialized state with online CPUs
0 and 1 and coordinator 0, via the empty chain. -/
theorem crashing_cpu_not_in_waiting_witness :
    (shootdownInit {0, 1} 0 st0).crashing_cpu ∉
      (shootdownInit {0, 1} 0 st0).waiting_to_crash :=
  crashing_cpu_not_in_waiting {0, 1} 0 st0 (shootdownInit {0, 1} 0 st0)
    Relation.ReflTransGen.refl

/-- C6: if the pending mask observed at the end of the poll is still
nonempty, the trace of machine_crash_shutdown reports failure naming
exactly that set of stragglers, still contains the iommu crash
shutdown, and both crash info fields end up written; the whole sequence
is a total function, so no step aborts it. -/
theorem shootdown_timeout_still_proceeds (env : ShootdownEnv) (cpu : Nat)
    (st : XenState) (h : env.pendingAt (shootdownElapsed env) ≠ ∅) :
    Event.printFailed (env.pendingAt (shootdownElapsed env)) ∈
        (machine_crash_shutdown env cpu st).2 ∧
    Event.iommuCrashShutdown ∈ (machine_crash_shutdown env cpu st).2 ∧
    (machine_crash_shutdown env cpu st).1.crashInfo.xen_phys_start
        = some env.physStart ∧
    (machine_crash_shutdown env cpu st).1.crashInfo.dom0_pfn_to_mfn_frame_list_list
        = some env.frameListRef := by
  refine ⟨?_, ?_, rfl, rfl⟩
  · simp only [machine_crash_shutdown, nmi_shootdown_cpus, if_neg h]
    split <;> simp
  · simp only [machine_crash_shutdown, nmi_shootdown_cpus]
    split <;> simp

/-- Witness for C6: in env0 (four online CPUs, CPU 2 never responds)
the straggler set is {2} and the sequence still quiesces and writes the
crash info. -/
theorem shootdown_timeout_still_proceeds_witness :
    Event.printFailed (env0.pendingAt (shootdownElapsed env0)) ∈
        (machine_crash_shutdown env0 0 st0).2 ∧
    Event.iommuCrashShutdown ∈ (machine_crash_shutdown env0 0 st0).2 ∧
    (machine_crash_shutdown env0 0 st0).1.crashInfo.xen_phys_start
        = some env0.physStart ∧
    (machine_crash_shutdown env0 0 st0).1.crashInfo.dom0_pfn_to_mfn_frame_list_list
        = some env0.frameListRef :=
  shootdown_timeout_still_proceeds env0 0 st0 (by decide)

/-- C7: when the coordinator is online, the pcidevs lock is only ever
tried, never waited for: if the trylock succeeds the trace disables MSI
on all devices and then releases the lock; if it fails both events are
absent, no error is raised, and the remaining local shutdown steps
(IO-APIC disable, HPET disable, iommu quiesce) still run. -/
theorem pcidevs_trylock_branches (env : ShootdownEnv) (cpu : Nat) (st : XenState)
    (h : cpu ∈ env.onlineMap) :
    (env.lockFree = true →
      Event.pciDisableMsiAll ∈ (nmi_shootdown_cpus env cpu st).2 ∧
      Event.pcidevsUnlock ∈ (nmi_shootdown_cpus env cpu st).2) ∧
    (env.lockFree = false →
      Event.pciDisableMsiAll ∉ (nmi_shootdown_cpus env cpu st).2 ∧
      Event.pcidevsUnlock ∉ (nmi_shootdown_cpus env cpu st).2) ∧
    Event.disableIOAPIC ∈ (nmi_shootdown_cpus env cpu st).2 ∧
    Event.hpetDisable ∈ (nmi_shootdown_cpus env cpu st).2 ∧
    Event.iommuQuiesce ∈ (nmi_shootdown_cpus env cpu st).2 := by
  simp only [nmi_shootdown_cpus, if_pos h]
  refine ⟨?_, ?_, ?_, ?_, ?_⟩
  · intro hl
    rw [if_pos hl]
    constructor <;> (split <;> simp)
  · intro hl
    rw [hl]
    constructor <;> (split <;> simp)
  all_goals split <;> simp

/-- Witness for C7 on env0: the lock is held elsewhere
(lockFree = false), CPU 0 is online. -/
theorem pcidevs_trylock_branches_witness :
    (env0.lockFree = true →
      Event.pciDisableMsiAll ∈ (nmi_shootdown_cpus env0 0 st0).2 ∧
      Event.pcidevsUnlock ∈ (nmi_shootdown_cpus env0 0 st0).2) ∧
    (env0.lockFree = false →
      Event.pciDisableMsiAll ∉ (nmi_shootdown_cpus env0 0 st0).2 ∧
      Event.pcidevsUnlock ∉ (nmi_shootdown_cpus env0 0 st0).2) ∧
    Event.disableIOAPIC ∈ (nmi_shootdown_cpus env0 0 st0).2 ∧
    Event.hpetDisable ∈ (nmi_shootdown_cpus env0 0 st0).2 ∧
    Event.iommuQuiesce ∈ (nmi_shootdown_cpus env0 0 st0).2 :=
  pcidevs_trylock_branches env0 0 st0 (by decide)

/-- C8: under the unrecognized APIC addressing mode the handler tail
issues no self-targeted NMI on any invocation of do_nmi_crash, raises
no error, and the trace still ends at the halt loop. -/
theorem unknown_apic_mode_skips_self_latch (st : XenState) (cpu : Nat) :
    (∀ c, Event.selfNmi c ∉ (do_nmi_crash ApicMode.unknown st cpu).2) ∧
    (do_nmi_crash ApicMode.unknown st cpu).2.getLast? = some Event.halt := by
  constructor
  · intro c
    simp only [do_nmi_crash, nmiCrashTail]
    split <;> simp
  · simp only [do_nmi_crash, nmiCrashTail]
    split <;> simp

/-- C9: in every run of nmi_shootdown_cpus the trace starts with the
fixed prefix in which the NMI gate is rebound to the no-op handler, the
MCE IST is disabled and the NMI callback is installed strictly before
the NMI broadcast; everything else comes after the broadcast. -/
theorem vector_setup_before_broadcast (env : ShootdownEnv) (cpu : Nat)
    (st : XenState) :
    ∃ rest, (nmi_shootdown_cpus env cpu st).2 =
      [Event.disableWatchdog, Event.localIrqDisable, Event.setNmiGateNop,
       Event.setIstMcNone cpu, Event.setNmiCallback, Event.sendNmiAllButSelf]
        ++ rest := by
  simp only [nmi_shootdown_cpus]
  split
  · exact ⟨_, by simp only [List.append_assoc]; exact rfl⟩
  · exact ⟨_, rfl⟩

/-- C10: the state-capture call appears in no coordinator trace (for
any CPU id), and in a remote handler trace only for the CPU the handler
runs on; with the handler precondition cpu differs from crashing_cpu
(the ASSERT of do_nmi_crash), the coordinator register state is never
captured. -/
theorem save_cpu_only_in_remote_handler (env : ShootdownEnv) (cpu : Nat)
    (st : XenState) :
    (∀ c, Event.saveCpu c ∉ (machine_crash_shutdown env cpu st).2) ∧
    (∀ mode st2 c c2, Event.saveCpu c2 ∈ (do_nmi_crash mode st2 c).2 → c2 = c) := by
  constructor
  · intro c
    simp only [machine_crash_shutdown, nmi_shootdown_cpus]
    split <;> split <;> simp
  · intro mode st2 c c2 hmem
    simp only [do_nmi_crash, nmiCrashTail] at hmem
    rcases mode <;> (split at hmem <;> simp_all)

end CrashModel
